import Mathlib

/-!
Shallow embedding of `ijroi/ijroi.py` (the ImageJ ROI binary decoder).

The byte stream handed to `read_roi` is modelled as a `List Nat` of bytes
(most-significant byte first on the wire, exactly as the source's `get8` /
`get16` / `get32` combinators consume it).  Machine integers are `Nat`/`Int`
with explicit wrap-around where the source stores into `np.int16` arrays.
IEEE-754 float32 values are carried around by their 32-bit patterns: the
source's `getfloat` is a pure bit reinterpretation (`np.int32(...).view
(np.float32)`), and the only float arithmetic anywhere is the `x1+x2` /
`y1+y2` additions of the sub-pixel rectangle branch, which are abstracted by
a parameter `fadd : Nat → Nat → Nat` acting on bit patterns.
-/

namespace IJRoi

/-- Option bit flags (module constants in the source). Only
SUB_PIXEL_RESOLUTION is consumed semantically. -/
def SPLINE_FIT : Nat := 1

def DOUBLE_HEADED : Nat := 2

def OUTLINE : Nat := 4

def OVERLAY_LABELS : Nat := 8

def OVERLAY_NAMES : Nat := 16

def OVERLAY_BACKGROUNDS : Nat := 32

def OVERLAY_BOLD : Nat := 64

def SUB_PIXEL_RESOLUTION : Nat := 128

def DRAW_OFFSET : Nat := 256

namespace RoiType

/-- RoiType constants from the source's scope-local class. -/
def POLYGON : Nat := 0

def RECT : Nat := 1

def OVAL : Nat := 2

def LINE : Nat := 3

def FREELINE : Nat := 4

def POLYLINE : Nat := 5

def NOROI : Nat := 6

def FREEHAND : Nat := 7

def TRACED : Nat := 8

def ANGLE : Nat := 9

def POINT : Nat := 10

end RoiType

/-- Errors `read_roi` can signal.  `badMagic` is the source's
ValueError at the magic check, `unexpectedEof` the IOError raised by `get8`,
`unsupportedRoiType` / `unsupportedSubtype` the two NotImplementedError
raises, and `nameError` the NameError raised in the composite branch, whose
first statement references the undefined name `file_obj` (the function
parameter is spelled `fileobj`). -/
inductive RoiError where
  | unexpectedEof : RoiError
  | badMagic : RoiError
  | unsupportedRoiType : RoiError
  | unsupportedSubtype : RoiError
  | nameError : RoiError
deriving DecidableEq, Repr

/-- Result of a successful decode: an n-by-2 array of (row, column) pairs,
either int16-valued or float32-valued (floats carried as bit patterns). -/
inductive RoiResult where
  | intPoints : List (Int × Int) → RoiResult
  | floatPoints : List (Nat × Nat) → RoiResult
deriving DecidableEq, Repr

/-- Reads one byte; raises EOF when the stream is exhausted, mirroring
`get8` in the source. -/
def get8 : List Nat → Except RoiError (Nat × List Nat)
  | [] => Except.error RoiError.unexpectedEof
  | b :: rest => Except.ok (b, rest)

/-- Big-endian 16-bit read, `(b0 << 8) | b1` as in the source. -/
def get16 (l : List Nat) : Except RoiError (Nat × List Nat) := do
  let (b0, l) ← get8 l
  let (b1, l) ← get8 l
  pure ((b0 <<< 8) ||| b1, l)

/-- Big-endian 32-bit read, `(s0 << 16) | s1` as in the source. -/
def get32 (l : List Nat) : Except RoiError (Nat × List Nat) := do
  let (s0, l) ← get16 l
  let (s1, l) ← get16 l
  pure ((s0 <<< 16) ||| s1, l)

/-- Float32 read: `np.int32(get32()).view(np.float32)` reinterprets the
32-bit integer's pattern as a float; the pattern itself is returned. -/
def getfloat (l : List Nat) : Except RoiError (Nat × List Nat) :=
  get32 l

/-- Sequential read of `n` values with the given primitive, mirroring the
source's `[getc() for i in range(n_coordinates)]` list comprehensions. -/
def getN (get : List Nat → Except RoiError (Nat × List Nat)) :
    Nat → List Nat → Except RoiError (List Nat × List Nat)
  | 0, l => Except.ok ([], l)
  | n + 1, l => do
    let (v, l) ← get l
    let (vs, l) ← getN get n l
    pure (v :: vs, l)

/-- Value of an arbitrary integer once stored in a numpy int16 cell:
two's-complement wrap-around into [-32768, 32768). -/
def toInt16 (z : Int) : Int :=
  (z + 32768) % 65536 - 32768

/-- RoiDecoder.java line 177 as transcribed by the source:
`subPixelResolution = ((options & SUB_PIXEL_RESOLUTION) != 0) and (version >= 222)`. -/
def subPixel (options version : Nat) : Bool :=
  (options &&& SUB_PIXEL_RESOLUTION != 0) && decide (222 ≤ version)

/-- All header fields read by the source, in source order.  Float-typed
fields (x1, y1, x2, y2) hold the 32-bit patterns. -/
structure RoiHeader where
  version : Nat
  roi_type : Nat
  top : Nat
  left : Nat
  bottom : Nat
  right : Nat
  n_coordinates : Nat
  x1 : Nat
  y1 : Nat
  x2 : Nat
  y2 : Nat
  stroke_width : Nat
  shape_roi_size : Nat
  stroke_color : Nat
  fill_color : Nat
  subtype : Nat
  options : Nat
  arrow_style : Nat
  arrow_head_size : Nat
  rect_arc_size : Nat
  position : Nat
  header2offset : Nat
deriving DecidableEq, Repr

/-- The fixed header reads that follow the 4 magic bytes, in the exact
order and widths of the source (60 bytes in total). -/
def parseHeader (l : List Nat) : Except RoiError (RoiHeader × List Nat) := do
  let (version, l) ← get16 l
  let (roi_type, l) ← get8 l
  let (_, l) ← get8 l
  let (top, l) ← get16 l
  let (left, l) ← get16 l
  let (bottom, l) ← get16 l
  let (right, l) ← get16 l
  let (n_coordinates, l) ← get16 l
  let (x1, l) ← getfloat l
  let (y1, l) ← getfloat l
  let (x2, l) ← getfloat l
  let (y2, l) ← getfloat l
  let (stroke_width, l) ← get16 l
  let (shape_roi_size, l) ← get32 l
  let (stroke_color, l) ← get32 l
  let (fill_color, l) ← get32 l
  let (subtype, l) ← get16 l
  let (options, l) ← get16 l
  let (arrow_style, l) ← get8 l
  let (arrow_head_size, l) ← get8 l
  let (rect_arc_size, l) ← get16 l
  let (position, l) ← get32 l
  let (header2offset, l) ← get32 l
  pure (⟨version, roi_type, top, left, bottom, right, n_coordinates,
    x1, y1, x2, y2, stroke_width, shape_roi_size, stroke_color, fill_color,
    subtype, options, arrow_style, arrow_head_size, rect_arc_size,
    position, header2offset⟩, l)

/-- Shape reconstruction for the rectangle and point-list branches of the
source (lines 148-173), given the decoded header and the stream positioned
right after the 64-byte header.  The composite branch never reaches this
function (see `read_roi`). -/
def reconstruct (fadd : Nat → Nat → Nat) (h : RoiHeader) (rest : List Nat) :
    Except RoiError RoiResult :=
  if h.roi_type = RoiType.RECT then
    if subPixel h.options h.version then
      Except.ok (RoiResult.floatPoints
        [(h.y1, h.x1), (h.y1, fadd h.x1 h.x2),
         (fadd h.y1 h.y2, fadd h.x1 h.x2), (fadd h.y1 h.y2, h.x1)])
    else
      Except.ok (RoiResult.intPoints
        [(toInt16 h.top, toInt16 h.left), (toInt16 h.top, toInt16 h.right),
         (toInt16 h.bottom, toInt16 h.right), (toInt16 h.bottom, toInt16 h.left)])
  else if subPixel h.options h.version then
    match getN getfloat h.n_coordinates (rest.drop (4 * h.n_coordinates)) with
    | Except.error e => Except.error e
    | Except.ok (xs, rest') =>
      match getN getfloat h.n_coordinates rest' with
      | Except.error e => Except.error e
      | Except.ok (ys, _) =>
        Except.ok (RoiResult.floatPoints (List.zip ys xs))
  else
    match getN get16 h.n_coordinates rest with
    | Except.error e => Except.error e
    | Except.ok (xs, rest') =>
      match getN get16 h.n_coordinates rest' with
      | Except.error e => Except.error e
      | Except.ok (ys, _) =>
        let cols0 := xs.map (fun x => toInt16 (Int.ofNat x))
        let rows0 := ys.map (fun y => toInt16 (Int.ofNat y))
        let cols := cols0.map (fun c => toInt16 (c + Int.ofNat h.left))
        let rows := rows0.map (fun r => toInt16 (r + Int.ofNat h.top))
        Except.ok (RoiResult.intPoints (List.zip rows cols))

/-- The magic signature bytes of `b'Iout'`. -/
def magicBytes : List Nat := [73, 111, 117, 116]

/-- The full decoder.  Mirrors `read_roi` in the source: the magic bytes are
obtained with `fileobj.read(4)` (no EOF check, a short read simply compares
unequal), the fixed header follows, then the validity checks in source
order, then the composite / rectangle / point-list dispatch.  The composite
branch (`shape_roi_size > 0`) raises NameError: its first statement
`coords_bytes = file_obj.read()` references the undefined name `file_obj`. -/
def read_roi (fadd : Nat → Nat → Nat) (data : List Nat) :
    Except RoiError RoiResult :=
  if data.take 4 ≠ magicBytes then
    Except.error RoiError.badMagic
  else
    match parseHeader (data.drop 4) with
    | Except.error e => Except.error e
    | Except.ok (h, rest) =>
      if ¬ (h.roi_type ∈ [RoiType.FREEHAND, RoiType.TRACED, RoiType.POLYGON,
          RoiType.RECT, RoiType.POINT]) then
        Except.error RoiError.unsupportedRoiType
      else if h.subtype ≠ 0 then
        Except.error RoiError.unsupportedSubtype
      else if 0 < h.shape_roi_size then
        Except.error RoiError.nameError
      else
        reconstruct fadd h rest

/-- Big-endian encoding of a 16-bit value, for building wire inputs. -/
def encode16 (v : Nat) : List Nat := [v / 256, v % 256]

/-- Big-endian encoding of a 32-bit value. -/
def encode32 (v : Nat) : List Nat := encode16 (v / 65536) ++ encode16 (v % 65536)

/-- Concatenated 16-bit encodings of a value list. -/
def encode16List (vs : List Nat) : List Nat := (vs.map encode16).flatten

/-- Concatenated 32-bit encodings of a value list. -/
def encode32List (vs : List Nat) : List Nat := (vs.map encode32).flatten

/-- The 60 header bytes that follow the magic, assembled from field
values (the reserved byte after roi_type is `b7`). -/
def headerBody (version roi_type b7 top left bottom right n_coordinates
    x1 y1 x2 y2 stroke_width shape_roi_size stroke_color fill_color
    subtype options arrow_style arrow_head_size rect_arc_size
    posn header2offset : Nat) : List Nat :=
  encode16 version ++ [roi_type, b7] ++ encode16 top ++ encode16 left ++
  encode16 bottom ++ encode16 right ++ encode16 n_coordinates ++
  encode32 x1 ++ encode32 y1 ++ encode32 x2 ++ encode32 y2 ++
  encode16 stroke_width ++ encode32 shape_roi_size ++ encode32 stroke_color ++
  encode32 fill_color ++ encode16 subtype ++ encode16 options ++
  [arrow_style, arrow_head_size] ++ encode16 rect_arc_size ++
  encode32 posn ++ encode32 header2offset

/-! Basic reduction lemmas for the byte-cursor primitives. -/

theorem bind_ok_reduce {α β : Type} (a : α) (f : α → Except RoiError β) :
    (Except.ok a >>= f) = f a := rfl

theorem bind_error_reduce {α β : Type} (e : RoiError) (f : α → Except RoiError β) :
    ((Except.error e : Except RoiError α) >>= f) = Except.error e := rfl

theorem pure_reduce {α : Type} (a : α) :
    (pure a : Except RoiError α) = Except.ok a := rfl

theorem get8_cons (b : Nat) (l : List Nat) : get8 (b :: l) = Except.ok (b, l) := rfl

theorem get16_cons (b0 b1 : Nat) (l : List Nat) :
    get16 (b0 :: b1 :: l) = Except.ok ((b0 <<< 8) ||| b1, l) := rfl

theorem shiftLeft_or_eq_add (a b k : Nat) (h : b < 2 ^ k) :
    (a <<< k) ||| b = a * 2 ^ k + b :=
  calc (a <<< k) ||| b = (2 ^ k * a) ||| b := by rw [Nat.shiftLeft_eq, Nat.mul_comm]
    _ = 2 ^ k * a + b := (Nat.mul_add_lt_is_or h a).symm
    _ = a * 2 ^ k + b := by rw [Nat.mul_comm]

theorem compose16 (v : Nat) :
    ((v / 256) <<< 8) ||| (v % 256) = v := by
  rw [shiftLeft_or_eq_add _ _ 8 (by omega : v % 256 < 2 ^ 8)]
  omega

theorem get16_encode (v : Nat) (l : List Nat) :
    get16 (encode16 v ++ l) = Except.ok (v, l) := by
  simp only [encode16, List.cons_append, List.nil_append, get16_cons, compose16 v]

theorem get32_encode (v : Nat) (l : List Nat) :
    get32 (encode32 v ++ l) = Except.ok (v, l) := by
  simp only [encode32, List.append_assoc, get32,
    get16_encode, bind_ok_reduce, pure_reduce]
  rw [shiftLeft_or_eq_add _ _ 16 (by omega : v % 65536 < 2 ^ 16)]
  norm_num
  omega

theorem getfloat_encode (v : Nat) (l : List Nat) :
    getfloat (encode32 v ++ l) = Except.ok (v, l) :=
  get32_encode v l

theorem getN_encode16 (vs : List Nat) (l : List Nat) :
    getN get16 vs.length (encode16List vs ++ l) = Except.ok (vs, l) := by
  induction vs generalizing l with
  | nil => rfl
  | cons v vs ih =>
    have he : encode16List (v :: vs) ++ l = encode16 v ++ (encode16List vs ++ l) := by
      simp [encode16List]
    rw [List.length_cons, he]
    simp only [getN, get16_encode, bind_ok_reduce, ih, pure_reduce]

theorem getN_encode32 (vs : List Nat) (l : List Nat) :
    getN getfloat vs.length (encode32List vs ++ l) = Except.ok (vs, l) := by
  induction vs generalizing l with
  | nil => rfl
  | cons v vs ih =>
    have he : encode32List (v :: vs) ++ l = encode32 v ++ (encode32List vs ++ l) := by
      simp [encode32List]
    rw [List.length_cons, he]
    simp only [getN, getfloat_encode, bind_ok_reduce, ih, pure_reduce]

/-! Classification lemmas: every cursor read either fails with EOF or
consumes exactly its width. -/

theorem get8_cases (l : List Nat) :
    get8 l = Except.error RoiError.unexpectedEof ∨
    ∃ v rest, get8 l = Except.ok (v, rest) ∧ l.length = rest.length + 1 := by
  cases l with
  | nil => left; rfl
  | cons b t => right; exact ⟨b, t, rfl, by simp⟩

theorem get16_cases (l : List Nat) :
    get16 l = Except.error RoiError.unexpectedEof ∨
    ∃ v rest, get16 l = Except.ok (v, rest) ∧ l.length = rest.length + 2 := by
  unfold get16
  rcases get8_cases l with h1 | ⟨b0, l1, h1, e1⟩
  · left; simp only [h1, bind_error_reduce]
  simp only [h1, bind_ok_reduce]
  rcases get8_cases l1 with h2 | ⟨b1, l2, h2, e2⟩
  · left; simp only [h2, bind_error_reduce]
  simp only [h2, bind_ok_reduce, pure_reduce]
  right
  exact ⟨_, l2, rfl, by omega⟩

theorem get32_cases (l : List Nat) :
    get32 l = Except.error RoiError.unexpectedEof ∨
    ∃ v rest, get32 l = Except.ok (v, rest) ∧ l.length = rest.length + 4 := by
  unfold get32
  rcases get16_cases l with h1 | ⟨s0, l1, h1, e1⟩
  · left; simp only [h1, bind_error_reduce]
  simp only [h1, bind_ok_reduce]
  rcases get16_cases l1 with h2 | ⟨s1, l2, h2, e2⟩
  · left; simp only [h2, bind_error_reduce]
  simp only [h2, bind_ok_reduce, pure_reduce]
  right
  exact ⟨_, l2, rfl, by omega⟩

theorem getfloat_cases (l : List Nat) :
    getfloat l = Except.error RoiError.unexpectedEof ∨
    ∃ v rest, getfloat l = Except.ok (v, rest) ∧ l.length = rest.length + 4 :=
  get32_cases l

theorem get16_error (l : List Nat) (e : RoiError) (h : get16 l = Except.error e) :
    e = RoiError.unexpectedEof := by
  rcases get16_cases l with h2 | ⟨v, r, h2, _⟩
  · injection h.symm.trans h2
  · rw [h2] at h; cases h

theorem getfloat_error (l : List Nat) (e : RoiError) (h : getfloat l = Except.error e) :
    e = RoiError.unexpectedEof := by
  rcases getfloat_cases l with h2 | ⟨v, r, h2, _⟩
  · injection h.symm.trans h2
  · rw [h2] at h; cases h

theorem getN_error (get : List Nat → Except RoiError (Nat × List Nat))
    (hget : ∀ l e, get l = Except.error e → e = RoiError.unexpectedEof) :
    ∀ (n : Nat) (l : List Nat) (e : RoiError),
    getN get n l = Except.error e → e = RoiError.unexpectedEof := by
  intro n
  induction n with
  | zero => intro l e h; cases h
  | succ n ih =>
    intro l e h
    simp only [getN] at h
    cases hg : get l with
    | error e' =>
      rw [hg, bind_error_reduce] at h
      injection h with h'
      exact h' ▸ hget l e' hg
    | ok p =>
      obtain ⟨v, l'⟩ := p
      rw [hg, bind_ok_reduce] at h
      simp only at h
      cases hg2 : getN get n l' with
      | error e'' =>
        rw [hg2, bind_error_reduce] at h
        injection h with h'
        exact h' ▸ ih l' e'' hg2
      | ok p2 =>
        obtain ⟨vs, l''⟩ := p2
        rw [hg2, bind_ok_reduce] at h
        cases h

theorem parseHeader_short (l : List Nat) (hl : l.length < 60) :
    parseHeader l = Except.error RoiError.unexpectedEof := by
  rcases l with _ | ⟨b0, l⟩
  · rfl
  rcases l with _ | ⟨b1, l⟩
  · rfl
  rcases l with _ | ⟨b2, l⟩
  · rfl
  rcases l with _ | ⟨b3, l⟩
  · rfl
  rcases l with _ | ⟨b4, l⟩
  · rfl
  rcases l with _ | ⟨b5, l⟩
  · rfl
  rcases l with _ | ⟨b6, l⟩
  · rfl
  rcases l with _ | ⟨b7, l⟩
  · rfl
  rcases l with _ | ⟨b8, l⟩
  · rfl
  rcases l with _ | ⟨b9, l⟩
  · rfl
  rcases l with _ | ⟨b10, l⟩
  · rfl
  rcases l with _ | ⟨b11, l⟩
  · rfl
  rcases l with _ | ⟨b12, l⟩
  · rfl
  rcases l with _ | ⟨b13, l⟩
  · rfl
  rcases l with _ | ⟨b14, l⟩
  · rfl
  rcases l with _ | ⟨b15, l⟩
  · rfl
  rcases l with _ | ⟨b16, l⟩
  · rfl
  rcases l with _ | ⟨b17, l⟩
  · rfl
  rcases l with _ | ⟨b18, l⟩
  · rfl
  rcases l with _ | ⟨b19, l⟩
  · rfl
  rcases l with _ | ⟨b20, l⟩
  · rfl
  rcases l with _ | ⟨b21, l⟩
  · rfl
  rcases l with _ | ⟨b22, l⟩
  · rfl
  rcases l with _ | ⟨b23, l⟩
  · rfl
  rcases l with _ | ⟨b24, l⟩
  · rfl
  rcases l with _ | ⟨b25, l⟩
  · rfl
  rcases l with _ | ⟨b26, l⟩
  · rfl
  rcases l with _ | ⟨b27, l⟩
  · rfl
  rcases l with _ | ⟨b28, l⟩
  · rfl
  rcases l with _ | ⟨b29, l⟩
  · rfl
  rcases l with _ | ⟨b30, l⟩
  · rfl
  rcases l with _ | ⟨b31, l⟩
  · rfl
  rcases l with _ | ⟨b32, l⟩
  · rfl
  rcases l with _ | ⟨b33, l⟩
  · rfl
  rcases l with _ | ⟨b34, l⟩
  · rfl
  rcases l with _ | ⟨b35, l⟩
  · rfl
  rcases l with _ | ⟨b36, l⟩
  · rfl
  rcases l with _ | ⟨b37, l⟩
  · rfl
  rcases l with _ | ⟨b38, l⟩
  · rfl
  rcases l with _ | ⟨b39, l⟩
  · rfl
  rcases l with _ | ⟨b40, l⟩
  · rfl
  rcases l with _ | ⟨b41, l⟩
  · rfl
  rcases l with _ | ⟨b42, l⟩
  · rfl
  rcases l with _ | ⟨b43, l⟩
  · rfl
  rcases l with _ | ⟨b44, l⟩
  · rfl
  rcases l with _ | ⟨b45, l⟩
  · rfl
  rcases l with _ | ⟨b46, l⟩
  · rfl
  rcases l with _ | ⟨b47, l⟩
  · rfl
  rcases l with _ | ⟨b48, l⟩
  · rfl
  rcases l with _ | ⟨b49, l⟩
  · rfl
  rcases l with _ | ⟨b50, l⟩
  · rfl
  rcases l with _ | ⟨b51, l⟩
  · rfl
  rcases l with _ | ⟨b52, l⟩
  · rfl
  rcases l with _ | ⟨b53, l⟩
  · rfl
  rcases l with _ | ⟨b54, l⟩
  · rfl
  rcases l with _ | ⟨b55, l⟩
  · rfl
  rcases l with _ | ⟨b56, l⟩
  · rfl
  rcases l with _ | ⟨b57, l⟩
  · rfl
  rcases l with _ | ⟨b58, l⟩
  · rfl
  rcases l with _ | ⟨b59, l⟩
  · rfl
  simp only [List.length_cons] at hl
  omega

theorem parseHeader_cons (b0 b1 b2 b3 b4 b5 b6 b7 b8 b9 b10 b11 b12 b13 b14 b15 b16 b17 b18 b19 b20 b21 b22 b23 b24 b25 b26 b27 b28 b29 b30 b31 b32 b33 b34 b35 b36 b37 b38 b39 b40 b41 b42 b43 b44 b45 b46 b47 b48 b49 b50 b51 b52 b53 b54 b55 b56 b57 b58 b59 : Nat) (tail : List Nat) :
    parseHeader (b0 :: b1 :: b2 :: b3 :: b4 :: b5 :: b6 :: b7 :: b8 :: b9 :: b10 :: b11 :: b12 :: b13 :: b14 :: b15 :: b16 :: b17 :: b18 :: b19 :: b20 :: b21 :: b22 :: b23 :: b24 :: b25 :: b26 :: b27 :: b28 :: b29 :: b30 :: b31 :: b32 :: b33 :: b34 :: b35 :: b36 :: b37 :: b38 :: b39 :: b40 :: b41 :: b42 :: b43 :: b44 :: b45 :: b46 :: b47 :: b48 :: b49 :: b50 :: b51 :: b52 :: b53 :: b54 :: b55 :: b56 :: b57 :: b58 :: b59 :: tail) =
      Except.ok (⟨(b0 <<< 8) ||| b1, b2, (b4 <<< 8) ||| b5, (b6 <<< 8) ||| b7, (b8 <<< 8) ||| b9, (b10 <<< 8) ||| b11, (b12 <<< 8) ||| b13, ((((b14 <<< 8) ||| b15) <<< 16) ||| ((b16 <<< 8) ||| b17)), ((((b18 <<< 8) ||| b19) <<< 16) ||| ((b20 <<< 8) ||| b21)), ((((b22 <<< 8) ||| b23) <<< 16) ||| ((b24 <<< 8) ||| b25)), ((((b26 <<< 8) ||| b27) <<< 16) ||| ((b28 <<< 8) ||| b29)), (b30 <<< 8) ||| b31, ((((b32 <<< 8) ||| b33) <<< 16) ||| ((b34 <<< 8) ||| b35)), ((((b36 <<< 8) ||| b37) <<< 16) ||| ((b38 <<< 8) ||| b39)), ((((b40 <<< 8) ||| b41) <<< 16) ||| ((b42 <<< 8) ||| b43)), (b44 <<< 8) ||| b45, (b46 <<< 8) ||| b47, b48, b49, (b50 <<< 8) ||| b51, ((((b52 <<< 8) ||| b53) <<< 16) ||| ((b54 <<< 8) ||| b55)), ((((b56 <<< 8) ||| b57) <<< 16) ||| ((b58 <<< 8) ||| b59))⟩, tail) := rfl

theorem compose32 (v : Nat) :
    ((v / 65536) <<< 16) ||| (v % 65536) = v := by
  rw [shiftLeft_or_eq_add _ _ 16 (by omega : v % 65536 < 2 ^ 16)]
  omega

theorem parseHeader_body (V RT B7 TOP LEFT BOT RGT N X1 Y1 X2 Y2 SW SRS SC FC
    ST OPT ASTY AHSZ RAS POS H2O : Nat) (tail : List Nat) :
    parseHeader (headerBody V RT B7 TOP LEFT BOT RGT N X1 Y1 X2 Y2 SW SRS SC FC
        ST OPT ASTY AHSZ RAS POS H2O ++ tail) =
      Except.ok (⟨V, RT, TOP, LEFT, BOT, RGT, N, X1, Y1, X2, Y2, SW, SRS, SC, FC,
        ST, OPT, ASTY, AHSZ, RAS, POS, H2O⟩, tail) := by
  have hlist : headerBody V RT B7 TOP LEFT BOT RGT N X1 Y1 X2 Y2 SW SRS SC FC
      ST OPT ASTY AHSZ RAS POS H2O ++ tail =
      V / 256 :: V % 256 :: RT :: B7 ::
      TOP / 256 :: TOP % 256 :: LEFT / 256 :: LEFT % 256 ::
      BOT / 256 :: BOT % 256 :: RGT / 256 :: RGT % 256 ::
      N / 256 :: N % 256 ::
      X1 / 65536 / 256 :: X1 / 65536 % 256 :: X1 % 65536 / 256 :: X1 % 65536 % 256 ::
      Y1 / 65536 / 256 :: Y1 / 65536 % 256 :: Y1 % 65536 / 256 :: Y1 % 65536 % 256 ::
      X2 / 65536 / 256 :: X2 / 65536 % 256 :: X2 % 65536 / 256 :: X2 % 65536 % 256 ::
      Y2 / 65536 / 256 :: Y2 / 65536 % 256 :: Y2 % 65536 / 256 :: Y2 % 65536 % 256 ::
      SW / 256 :: SW % 256 ::
      SRS / 65536 / 256 :: SRS / 65536 % 256 :: SRS % 65536 / 256 :: SRS % 65536 % 256 ::
      SC / 65536 / 256 :: SC / 65536 % 256 :: SC % 65536 / 256 :: SC % 65536 % 256 ::
      FC / 65536 / 256 :: FC / 65536 % 256 :: FC % 65536 / 256 :: FC % 65536 % 256 ::
      ST / 256 :: ST % 256 :: OPT / 256 :: OPT % 256 ::
      ASTY :: AHSZ :: RAS / 256 :: RAS % 256 ::
      POS / 65536 / 256 :: POS / 65536 % 256 :: POS % 65536 / 256 :: POS % 65536 % 256 ::
      H2O / 65536 / 256 :: H2O / 65536 % 256 :: H2O % 65536 / 256 :: H2O % 65536 % 256 ::
      tail := by
    simp [headerBody, encode16, encode32]
  rw [hlist, parseHeader_cons]
  simp only [compose16, compose32]

theorem magic_take (l : List Nat) : (magicBytes ++ l).take 4 = magicBytes := rfl

theorem magic_drop (l : List Nat) : (magicBytes ++ l).drop 4 = l := rfl

theorem read_roi_magic (fadd : Nat → Nat → Nat) (l : List Nat) :
    read_roi fadd (magicBytes ++ l) =
      match parseHeader l with
      | Except.error e => Except.error e
      | Except.ok (h, rest) =>
        if ¬ (h.roi_type ∈ [RoiType.FREEHAND, RoiType.TRACED, RoiType.POLYGON,
            RoiType.RECT, RoiType.POINT]) then
          Except.error RoiError.unsupportedRoiType
        else if h.subtype ≠ 0 then
          Except.error RoiError.unsupportedSubtype
        else if 0 < h.shape_roi_size then
          Except.error RoiError.nameError
        else
          reconstruct fadd h rest := by
  unfold read_roi
  rw [magic_take, magic_drop]
  simp

theorem toInt16_add_left (a b : Int) : toInt16 (toInt16 a + b) = toInt16 (a + b) := by
  unfold toInt16
  omega

theorem zip_map_toInt16 (ys xs : List Nat) (T L : Int) :
    (ys.map fun y : Nat => toInt16 (toInt16 (y : Int) + T)).zip
      (xs.map fun x : Nat => toInt16 (toInt16 (x : Int) + L)) =
    (ys.zip xs).map
      (fun p => (toInt16 (T + (p.1 : Int)), toInt16 (L + (p.2 : Int)))) := by
  induction ys generalizing xs with
  | nil => simp
  | cons y ys ih =>
    cases xs with
    | nil => simp
    | cons x xs =>
      simp only [List.map_cons, List.zip_cons_cons, ih]
      have h1 : toInt16 (toInt16 (y : Int) + T) = toInt16 (T + (y : Int)) := by
        unfold toInt16; omega
      have h2 : toInt16 (toInt16 (x : Int) + L) = toInt16 (L + (x : Int)) := by
        unfold toInt16; omega
      rw [h1, h2]

/-- C10: an input of fewer than 4 bytes falls through the unchecked
4-byte magic read and fails the magic comparison, so the error is the
magic mismatch, not an end-of-file error. -/
theorem c10_short_input_bad_magic (fadd : Nat → Nat → Nat) (data : List Nat)
    (hlen : data.length < 4) :
    read_roi fadd data = Except.error RoiError.badMagic := by
  have h : data.take 4 ≠ magicBytes := by
    intro h
    have hlen2 := congrArg List.length h
    simp [List.length_take, magicBytes] at hlen2
    omega
  unfold read_roi
  simp [h]

theorem c10_short_input_bad_magic_witness :
    ([73, 111] : List Nat).length < 4 ∧
    read_roi (fun a b => a + b) [73, 111] = Except.error RoiError.badMagic :=
  ⟨by decide, c10_short_input_bad_magic (fun a b => a + b) [73, 111] (by decide)⟩

/-- C1: the composite branch (shape_roi_size > 0) cannot return the decoded
segment list the spec describes: its first statement reads the undefined
name `file_obj`, so every composite record raises NameError.  The input
below is a well-formed composite record (magic, version 227, roi_type
FREEHAND, subtype 0, shape_roi_size = 4) followed by the four big-endian
float32 patterns of a line segment terminated by a tag-4 opcode
(0.0, 1.0, 2.0, 4.0). -/
theorem c1_composite_raises_name_error :
    read_roi (fun a b => a + b)
      (magicBytes ++ (headerBody 227 7 0 0 0 0 0 0 0 0 0 0 0 4 0 0 0 0 0 0 0 0 0 ++
        encode32List [0, 1065353216, 1073741824, 1082130432])) =
      Except.error RoiError.nameError := rfl

/-- C2 counterexample: the empty input provides fewer bytes than the fixed
64-byte header requires, yet read_roi fails with the magic-mismatch error,
not with UnexpectedEof as the claim states. -/
theorem c2_counterexample_empty_input :
    read_roi (fun a b => a + b) [] = Except.error RoiError.badMagic ∧
    read_roi (fun a b => a + b) [] ≠ Except.error RoiError.unexpectedEof := by
  have h1 : read_roi (fun a b => a + b) [] = Except.error RoiError.badMagic := rfl
  refine ⟨h1, ?_⟩
  rw [h1]
  simp

/-- C2 (amended): every input whose first 4 bytes are the magic but which
provides fewer bytes than the fixed 64-byte header requires fails with
UnexpectedEof and never returns a partially populated header or any
geometry result. -/
theorem c2_truncated_header_eof (fadd : Nat → Nat → Nat) (data : List Nat)
    (hmagic : data.take 4 = magicBytes) (hlen : data.length < 64) :
    read_roi fadd data = Except.error RoiError.unexpectedEof := by
  have hlen4 : 4 ≤ data.length := by
    have h := congrArg List.length hmagic
    simp [List.length_take, magicBytes] at h
    omega
  have hsplit : data = magicBytes ++ data.drop 4 := by
    conv_lhs => rw [← List.take_append_drop 4 data]
    rw [hmagic]
  rw [hsplit, read_roi_magic,
    parseHeader_short _ (by simp [List.length_drop]; omega)]

theorem c2_truncated_header_eof_witness :
    (magicBytes ++ [0, 0]).take 4 = magicBytes ∧
    (magicBytes ++ [0, 0]).length < 64 ∧
    read_roi (fun a b => a + b) (magicBytes ++ [0, 0]) =
      Except.error RoiError.unexpectedEof :=
  ⟨by decide, by decide, c2_truncated_header_eof (fun a b => a + b) _ (by decide) (by decide)⟩

/-- C5: a rectangle record (roi_type = RECT, shape_roi_size = 0) decoded
without sub-pixel resolution returns exactly the 4 int16-wrapped bounds, in
the order [top,left], [top,right], [bottom,right], [bottom,left]. -/
theorem c5_rect_int_corners (fadd : Nat → Nat → Nat)
    (V B7 TOP LEFT BOT RGT N X1 Y1 X2 Y2 SW SC FC OPT ASTY AHSZ RAS POS H2O : Nat)
    (tail : List Nat) (hsub : subPixel OPT V = false) :
    read_roi fadd (magicBytes ++ (headerBody V RoiType.RECT B7 TOP LEFT BOT RGT N
        X1 Y1 X2 Y2 SW 0 SC FC 0 OPT ASTY AHSZ RAS POS H2O ++ tail)) =
    Except.ok (RoiResult.intPoints
      [(toInt16 TOP, toInt16 LEFT), (toInt16 TOP, toInt16 RGT),
       (toInt16 BOT, toInt16 RGT), (toInt16 BOT, toInt16 LEFT)]) := by
  rw [read_roi_magic, parseHeader_body]
  simp [reconstruct, hsub, RoiType.RECT, RoiType.FREEHAND, RoiType.TRACED,
    RoiType.POLYGON, RoiType.POINT]

theorem c5_rect_int_corners_witness :
    subPixel 0 220 = false ∧
    read_roi (fun a b => a + b) (magicBytes ++ (headerBody 220 RoiType.RECT 0
        2 3 4 5 0 0 0 0 0 0 0 0 0 0 0 0 0 0 0 0 ++ [])) =
    Except.ok (RoiResult.intPoints [(2, 3), (2, 5), (4, 5), (4, 3)]) :=
  ⟨by decide, c5_rect_int_corners (fun a b => a + b)
    220 0 2 3 4 5 0 0 0 0 0 0 0 0 0 0 0 0 0 0 [] (by decide)⟩

/-- C6: a rectangle record decoded with sub-pixel resolution active returns
the 4 float corners [y1,x1], [y1,x1+x2], [y1+y2,x1+x2], [y1+y2,x1], where
x2 and y2 act as offsets added (by float32 addition, abstracted as fadd on
the bit patterns) to the corner (x1, y1). -/
theorem c6_rect_float_corners (fadd : Nat → Nat → Nat)
    (V B7 TOP LEFT BOT RGT N X1 Y1 X2 Y2 SW SC FC OPT ASTY AHSZ RAS POS H2O : Nat)
    (tail : List Nat) (hsub : subPixel OPT V = true) :
    read_roi fadd (magicBytes ++ (headerBody V RoiType.RECT B7 TOP LEFT BOT RGT N
        X1 Y1 X2 Y2 SW 0 SC FC 0 OPT ASTY AHSZ RAS POS H2O ++ tail)) =
    Except.ok (RoiResult.floatPoints
      [(Y1, X1), (Y1, fadd X1 X2), (fadd Y1 Y2, fadd X1 X2), (fadd Y1 Y2, X1)]) := by
  rw [read_roi_magic, parseHeader_body]
  simp [reconstruct, hsub, RoiType.RECT, RoiType.FREEHAND, RoiType.TRACED,
    RoiType.POLYGON, RoiType.POINT]

theorem c6_rect_float_corners_witness :
    subPixel 128 222 = true ∧
    read_roi (fun a b => a + b) (magicBytes ++ (headerBody 222 RoiType.RECT 0
        0 0 0 0 0 10 20 1 2 0 0 0 0 0 128 0 0 0 0 0 ++ [])) =
    Except.ok (RoiResult.floatPoints [(20, 10), (20, 11), (22, 11), (22, 10)]) :=
  ⟨by decide, c6_rect_float_corners (fun a b => a + b)
    222 0 0 0 0 0 0 10 20 1 2 0 0 0 128 0 0 0 0 0 [] (by decide)⟩

/-- C3: a point-list record (supported non-RECT roi_type, shape_roi_size = 0,
subtype 0) decoded without sub-pixel resolution reads the n_coordinates
column values first, then the n_coordinates row values, and returns rows
(top + raw_y_i, left + raw_x_i) in int16 arithmetic. -/
theorem c3_point_list_int_offsets (fadd : Nat → Nat → Nat)
    (V RT B7 TOP LEFT BOT RGT N X1 Y1 X2 Y2 SW SC FC OPT ASTY AHSZ RAS POS H2O : Nat)
    (xs ys tail : List Nat)
    (hRT : RT ∈ [RoiType.FREEHAND, RoiType.TRACED, RoiType.POLYGON, RoiType.POINT])
    (hsub : subPixel OPT V = false)
    (hxs : xs.length = N) (hys : ys.length = N) :
    read_roi fadd (magicBytes ++ (headerBody V RT B7 TOP LEFT BOT RGT N
        X1 Y1 X2 Y2 SW 0 SC FC 0 OPT ASTY AHSZ RAS POS H2O ++
        (encode16List xs ++ (encode16List ys ++ tail)))) =
    Except.ok (RoiResult.intPoints ((ys.zip xs).map
      (fun p => (toInt16 ((TOP : Int) + (p.1 : Int)),
                 toInt16 ((LEFT : Int) + (p.2 : Int)))))) := by
  rw [read_roi_magic, parseHeader_body]
  have hN1 : getN get16 N (encode16List xs ++ (encode16List ys ++ tail)) =
      Except.ok (xs, encode16List ys ++ tail) := by
    rw [← hxs]; exact getN_encode16 xs _
  have hN2 : getN get16 N (encode16List ys ++ tail) = Except.ok (ys, tail) := by
    rw [← hys]; exact getN_encode16 ys _
  simp only [RoiType.FREEHAND, RoiType.TRACED, RoiType.POLYGON, RoiType.POINT,
    List.mem_cons, List.not_mem_nil, or_false] at hRT
  obtain rfl | rfl | rfl | rfl := hRT <;>
    simp [reconstruct, hsub, hN1, hN2, Function.comp_def, zip_map_toInt16,
      RoiType.RECT, RoiType.FREEHAND, RoiType.TRACED, RoiType.POLYGON,
      RoiType.POINT]

theorem c3_point_list_int_offsets_witness :
    (RoiType.POLYGON ∈ [RoiType.FREEHAND, RoiType.TRACED, RoiType.POLYGON,
      RoiType.POINT]) ∧ subPixel 0 220 = false ∧
    read_roi (fun a b => a + b) (magicBytes ++ (headerBody 220 RoiType.POLYGON 0
        5 3 9 9 2 0 0 0 0 0 0 0 0 0 0 0 0 0 0 0 ++
        (encode16List [10, 20] ++ (encode16List [30, 40] ++ [])))) =
    Except.ok (RoiResult.intPoints
      ((([30, 40] : List Nat).zip ([10, 20] : List Nat)).map
        (fun p => (toInt16 ((5 : Int) + (p.1 : Int)),
                   toInt16 ((3 : Int) + (p.2 : Int)))))) :=
  ⟨by decide, by decide,
    c3_point_list_int_offsets (fun a b => a + b) 220 RoiType.POLYGON 0
      5 3 9 9 2 0 0 0 0 0 0 0 0 0 0 0 0 0 [10, 20] [30, 40] []
      (by decide) (by decide) (by decide) (by decide)⟩

/-- C4: a point-list record decoded with sub-pixel resolution first seeks
past a block of 4 * n_coordinates bytes without reading it (the block's
content is arbitrary here), then reads n_coordinates float32 column values
followed by n_coordinates float32 row values, and returns the (row, column)
float pairs with no top/left offset applied. -/
theorem c4_point_list_subpixel (fadd : Nat → Nat → Nat)
    (V RT B7 TOP LEFT BOT RGT N X1 Y1 X2 Y2 SW SC FC OPT ASTY AHSZ RAS POS H2O : Nat)
    (skip xs ys tail : List Nat)
    (hRT : RT ∈ [RoiType.FREEHAND, RoiType.TRACED, RoiType.POLYGON, RoiType.POINT])
    (hsub : subPixel OPT V = true)
    (hskip : skip.length = 4 * N) (hxs : xs.length = N) (hys : ys.length = N) :
    read_roi fadd (magicBytes ++ (headerBody V RT B7 TOP LEFT BOT RGT N
        X1 Y1 X2 Y2 SW 0 SC FC 0 OPT ASTY AHSZ RAS POS H2O ++
        (skip ++ (encode32List xs ++ (encode32List ys ++ tail))))) =
    Except.ok (RoiResult.floatPoints (ys.zip xs)) := by
  rw [read_roi_magic, parseHeader_body]
  have hdrop : (skip ++ (encode32List xs ++ (encode32List ys ++ tail))).drop (4 * N) =
      encode32List xs ++ (encode32List ys ++ tail) := List.drop_left' hskip
  have hN1 : getN getfloat N (encode32List xs ++ (encode32List ys ++ tail)) =
      Except.ok (xs, encode32List ys ++ tail) := by
    rw [← hxs]; exact getN_encode32 xs _
  have hN2 : getN getfloat N (encode32List ys ++ tail) = Except.ok (ys, tail) := by
    rw [← hys]; exact getN_encode32 ys _
  simp only [RoiType.FREEHAND, RoiType.TRACED, RoiType.POLYGON, RoiType.POINT,
    List.mem_cons, List.not_mem_nil, or_false] at hRT
  obtain rfl | rfl | rfl | rfl := hRT <;>
    simp [reconstruct, hsub, hdrop, hN1, hN2, RoiType.RECT, RoiType.FREEHAND,
      RoiType.TRACED, RoiType.POLYGON, RoiType.POINT]

theorem c4_point_list_subpixel_witness :
    (RoiType.POINT ∈ [RoiType.FREEHAND, RoiType.TRACED, RoiType.POLYGON,
      RoiType.POINT]) ∧ subPixel 128 222 = true ∧
    ([9, 9, 9, 9] : List Nat).length = 4 * 1 ∧
    read_roi (fun a b => a + b) (magicBytes ++ (headerBody 222 RoiType.POINT 0
        0 0 0 0 1 0 0 0 0 0 0 0 0 0 128 0 0 0 0 0 ++
        ([9, 9, 9, 9] ++ (encode32List [1065353216] ++
          (encode32List [1073741824] ++ []))))) =
    Except.ok (RoiResult.floatPoints
      (([1073741824] : List Nat).zip ([1065353216] : List Nat))) :=
  ⟨by decide, by decide, by decide,
    c4_point_list_subpixel (fun a b => a + b) 222 RoiType.POINT 0
      0 0 0 0 1 0 0 0 0 0 0 0 128 0 0 0 0 0
      [9, 9, 9, 9] [1065353216] [1073741824] []
      (by decide) (by decide) (by decide) (by decide) (by decide)⟩

/-- C7: when version < 222, setting or clearing the SubPixelResolution bit
of the options word changes nothing: the version gate wins, and the two
otherwise-identical records decode to the same result.  The two inputs
differ exactly in bit 7 of options (OPT with the bit forced set versus OPT
with the bit forced clear). -/
theorem c7_version_gate_over_flag (fadd : Nat → Nat → Nat)
    (V RT B7 TOP LEFT BOT RGT N X1 Y1 X2 Y2 SW SRS SC FC ST OPT ASTY AHSZ RAS
      POS H2O : Nat) (tail : List Nat) (hV : V < 222) :
    read_roi fadd (magicBytes ++ (headerBody V RT B7 TOP LEFT BOT RGT N
        X1 Y1 X2 Y2 SW SRS SC FC ST (OPT ||| SUB_PIXEL_RESOLUTION)
        ASTY AHSZ RAS POS H2O ++ tail)) =
    read_roi fadd (magicBytes ++ (headerBody V RT B7 TOP LEFT BOT RGT N
        X1 Y1 X2 Y2 SW SRS SC FC ST (OPT &&& 65407)
        ASTY AHSZ RAS POS H2O ++ tail)) := by
  have hs : ∀ o, subPixel o V = false := by
    intro o
    unfold subPixel
    simp [Nat.not_le.mpr hV]
  rw [read_roi_magic, read_roi_magic, parseHeader_body, parseHeader_body]
  simp [reconstruct, hs]

theorem c7_version_gate_over_flag_witness :
    221 < 222 ∧
    read_roi (fun a b => a + b) (magicBytes ++ (headerBody 221 RoiType.RECT 0
        2 3 4 5 0 0 0 0 0 0 0 0 0 0 (0 ||| SUB_PIXEL_RESOLUTION)
        0 0 0 0 0 ++ [])) =
    read_roi (fun a b => a + b) (magicBytes ++ (headerBody 221 RoiType.RECT 0
        2 3 4 5 0 0 0 0 0 0 0 0 0 0 (0 &&& 65407) 0 0 0 0 0 ++ [])) :=
  ⟨by decide, c7_version_gate_over_flag (fun a b => a + b) 221 RoiType.RECT 0
    2 3 4 5 0 0 0 0 0 0 0 0 0 0 0 0 0 0 0 0 [] (by decide)⟩

/-- C8: a point-list record with n_coordinates = 0 decodes successfully to
an empty point array (int16-valued when sub-pixel resolution is off,
float-valued when it is on), not to an error. -/
theorem c8_zero_coordinates_empty (fadd : Nat → Nat → Nat)
    (V RT B7 TOP LEFT BOT RGT X1 Y1 X2 Y2 SW SC FC OPT ASTY AHSZ RAS POS H2O : Nat)
    (tail : List Nat)
    (hRT : RT ∈ [RoiType.FREEHAND, RoiType.TRACED, RoiType.POLYGON, RoiType.POINT]) :
    read_roi fadd (magicBytes ++ (headerBody V RT B7 TOP LEFT BOT RGT 0
        X1 Y1 X2 Y2 SW 0 SC FC 0 OPT ASTY AHSZ RAS POS H2O ++ tail)) =
      Except.ok (RoiResult.intPoints []) ∨
    read_roi fadd (magicBytes ++ (headerBody V RT B7 TOP LEFT BOT RGT 0
        X1 Y1 X2 Y2 SW 0 SC FC 0 OPT ASTY AHSZ RAS POS H2O ++ tail)) =
      Except.ok (RoiResult.floatPoints []) := by
  rw [read_roi_magic, parseHeader_body]
  simp only [RoiType.FREEHAND, RoiType.TRACED, RoiType.POLYGON, RoiType.POINT,
    List.mem_cons, List.not_mem_nil, or_false] at hRT
  cases hsub : subPixel OPT V with
  | false =>
    left
    obtain rfl | rfl | rfl | rfl := hRT <;>
      simp [reconstruct, hsub, getN, RoiType.RECT, RoiType.FREEHAND,
        RoiType.TRACED, RoiType.POLYGON, RoiType.POINT]
  | true =>
    right
    obtain rfl | rfl | rfl | rfl := hRT <;>
      simp [reconstruct, hsub, getN, RoiType.RECT, RoiType.FREEHAND,
        RoiType.TRACED, RoiType.POLYGON, RoiType.POINT]

theorem c8_zero_coordinates_empty_witness :
    (RoiType.POLYGON ∈ [RoiType.FREEHAND, RoiType.TRACED, RoiType.POLYGON,
      RoiType.POINT]) ∧
    (read_roi (fun a b => a + b) (magicBytes ++ (headerBody 220 RoiType.POLYGON 0
        0 0 0 0 0 0 0 0 0 0 0 0 0 0 0 0 0 0 0 0 ++ [])) =
      Except.ok (RoiResult.intPoints []) ∨
    read_roi (fun a b => a + b) (magicBytes ++ (headerBody 220 RoiType.POLYGON 0
        0 0 0 0 0 0 0 0 0 0 0 0 0 0 0 0 0 0 0 0 ++ [])) =
      Except.ok (RoiResult.floatPoints [])) :=
  ⟨by decide, c8_zero_coordinates_empty (fun a b => a + b) 220 RoiType.POLYGON 0
    0 0 0 0 0 0 0 0 0 0 0 0 0 0 0 0 0 [] (by decide)⟩

/-- Helper for C9: the rectangle and point-list branches can only fail with
an EOF error, never with the unsupported-type error. -/
theorem reconstruct_error (fadd : Nat → Nat → Nat) (h : RoiHeader)
    (rest : List Nat) (e : RoiError)
    (he : reconstruct fadd h rest = Except.error e) :
    e = RoiError.unexpectedEof := by
  unfold reconstruct at he
  by_cases h1 : h.roi_type = RoiType.RECT
  · rw [if_pos h1] at he
    by_cases h2 : subPixel h.options h.version <;> simp [h2] at he
  · rw [if_neg h1] at he
    by_cases h2 : subPixel h.options h.version
    · rw [if_pos h2] at he
      cases hg : getN getfloat h.n_coordinates (rest.drop (4 * h.n_coordinates)) with
      | error e' =>
        rw [hg] at he
        simp only [Except.error.injEq] at he
        subst he
        exact getN_error getfloat getfloat_error _ _ _ hg
      | ok p =>
        obtain ⟨xs, rest'⟩ := p
        rw [hg] at he
        simp only at he
        cases hg2 : getN getfloat h.n_coordinates rest' with
        | error e' =>
          rw [hg2] at he
          simp only [Except.error.injEq] at he
          subst he
          exact getN_error getfloat getfloat_error _ _ _ hg2
        | ok p2 =>
          obtain ⟨ys, r⟩ := p2
          rw [hg2] at he
          simp at he
    · rw [if_neg h2] at he
      cases hg : getN get16 h.n_coordinates rest with
      | error e' =>
        rw [hg] at he
        simp only [Except.error.injEq] at he
        subst he
        exact getN_error get16 get16_error _ _ _ hg
      | ok p =>
        obtain ⟨xs, rest'⟩ := p
        rw [hg] at he
        simp only at he
        cases hg2 : getN get16 h.n_coordinates rest' with
        | error e' =>
          rw [hg2] at he
          simp only [Except.error.injEq] at he
          subst he
          exact getN_error get16 get16_error _ _ _ hg2
        | ok p2 =>
          obtain ⟨ys, r⟩ := p2
          rw [hg2] at he
          simp at he

/-- C9: with a valid magic and a full header, a roi_type outside
{FREEHAND, TRACED, POLYGON, RECT, POINT} makes read_roi fail with the
unsupported-type error (whatever the other fields hold), while a roi_type
inside the set can never produce that error. -/
theorem c9_roi_type_gate (fadd : Nat → Nat → Nat)
    (V RT B7 TOP LEFT BOT RGT N X1 Y1 X2 Y2 SW SRS SC FC ST OPT ASTY AHSZ RAS
      POS H2O : Nat) (tail : List Nat) :
    (¬ (RT ∈ [RoiType.FREEHAND, RoiType.TRACED, RoiType.POLYGON, RoiType.RECT,
        RoiType.POINT]) →
      read_roi fadd (magicBytes ++ (headerBody V RT B7 TOP LEFT BOT RGT N
          X1 Y1 X2 Y2 SW SRS SC FC ST OPT ASTY AHSZ RAS POS H2O ++ tail)) =
        Except.error RoiError.unsupportedRoiType) ∧
    (RT ∈ [RoiType.FREEHAND, RoiType.TRACED, RoiType.POLYGON, RoiType.RECT,
        RoiType.POINT] →
      read_roi fadd (magicBytes ++ (headerBody V RT B7 TOP LEFT BOT RGT N
          X1 Y1 X2 Y2 SW SRS SC FC ST OPT ASTY AHSZ RAS POS H2O ++ tail)) ≠
        Except.error RoiError.unsupportedRoiType) := by
  constructor
  · intro hRT
    rw [read_roi_magic, parseHeader_body]
    simp [hRT]
  · intro hRT
    rw [read_roi_magic, parseHeader_body]
    by_cases hST : ST = 0
    · by_cases hSRS : 0 < SRS
      · simp [hRT, hST, hSRS]
      · simp [hRT, hST, hSRS]
        intro hcon
        exact RoiError.noConfusion (reconstruct_error fadd _ tail _ hcon)
    · simp [hRT, hST]

theorem c9_roi_type_gate_witness :
    (¬ (RoiType.OVAL ∈ [RoiType.FREEHAND, RoiType.TRACED, RoiType.POLYGON,
      RoiType.RECT, RoiType.POINT])) ∧
    read_roi (fun a b => a + b) (magicBytes ++ (headerBody 220 RoiType.OVAL 0
        0 0 0 0 0 0 0 0 0 0 0 0 0 0 0 0 0 0 0 0 ++ [])) =
      Except.error RoiError.unsupportedRoiType :=
  ⟨by decide,
    (c9_roi_type_gate (fun a b => a + b) 220 RoiType.OVAL 0
      0 0 0 0 0 0 0 0 0 0 0 0 0 0 0 0 0 0 0 0 []).1 (by decide)⟩

end IJRoi
